import Mathlib

set_option maxRecDepth 20000
set_option maxHeartbeats 1000000

/-!
Shallow embedding of `src/morning-bot.py` (the morning-routine assistant).

The Python program is a single dialogue controller (`on_message`) over a
process-wide mutable record (`user_data`), plus two search adapters
(`search_web`, `search_youtube`), one completion adapter
(`get_gemini_response`) and a local template renderer
(`generate_morning_routine`).  External services (the Gemini completion
endpoint, the DuckDuckGo search provider, the chat runtime's `send`) are
modelled as oracles packaged in an `Env`; fallible calls are modelled with
`Except String`, an exception being the `error` case.  Python string
operations used by the controller (`lower`, `strip`, `replace`, `split`,
substring membership, `', '.join`) are embedded as structural functions on
`List Char` so that every definition evaluates inside the kernel.
-/

namespace MorningBot

/-! ### Python string primitives -/

/-- Python `str.lower()` (ASCII case folding, which is all the program relies on). -/
def pyLower (s : String) : String := String.mk (s.data.map Char.toLower)

/-- Strip leading and trailing whitespace from a character list. -/
def stripL (l : List Char) : List Char :=
  ((l.dropWhile Char.isWhitespace).reverse.dropWhile Char.isWhitespace).reverse

/-- Python `str.strip()` with no argument. -/
def pyStrip (s : String) : String := String.mk (stripL s.data)

/-- Replace every non-overlapping occurrence of `pat`, scanning left to right,
with the empty string.  The fuel argument is initialised to the length of the
subject and only makes the recursion structural; it is never exhausted. -/
def replaceLAux (pat : List Char) : Nat → List Char → List Char
  | _, [] => []
  | 0, s => s
  | fuel + 1, c :: rest =>
    if pat.isPrefixOf (c :: rest) && !pat.isEmpty then
      replaceLAux pat fuel (List.drop pat.length (c :: rest))
    else
      c :: replaceLAux pat fuel rest

/-- Python `s.replace(pat, "")`. -/
def pyReplace (s pat : String) : String :=
  String.mk (replaceLAux pat.data s.data.length s.data)

/-- Whether `pat` occurs as a contiguous run inside the second list. -/
def infixOfL (pat : List Char) : List Char → Bool
  | [] => pat.isEmpty
  | c :: rest => pat.isPrefixOf (c :: rest) || infixOfL pat rest

/-- Python `pat in s` on strings. -/
def pyContains (s pat : String) : Bool := infixOfL pat.data s.data

/-- Python `any(keyword in content for keyword in kws)`. -/
def containsAny (content : String) (kws : List String) : Bool :=
  kws.any (fun k => pyContains content k)

/-- Python `s.split(",")` at the character-list level: splits at every comma
and keeps empty fields, so the result is always non-empty. -/
def splitCommaL : List Char → List (List Char)
  | [] => [[]]
  | c :: rest =>
    if c = ',' then [] :: splitCommaL rest
    else
      match splitCommaL rest with
      | [] => [[c]]
      | h :: t => (c :: h) :: t

/-- Python `s.split(",")`. -/
def pySplitComma (s : String) : List String := (splitCommaL s.data).map String.mk

/-- Python `[piece.strip() for piece in content.split(",")]`, the intake parser used
for habits, activities and goals. -/
def splitAndTrim (content : String) : List String := (pySplitComma content).map pyStrip

/-- Python `', '.join(l)`. -/
def joinComma : List String → String
  | [] => ""
  | [x] => x
  | x :: y :: rest => x ++ ", " ++ joinComma (y :: rest)

/-- Concatenation of a list of strings (the `response += ...` accumulation loops). -/
def concatAll : List String → String
  | [] => ""
  | s :: rest => s ++ concatAll rest

/-- Index of the first occurrence of `pat` in the list, if any. -/
def firstIdxL (pat : List Char) : List Char → Option Nat
  | [] => if pat.isEmpty then some 0 else none
  | c :: rest =>
    if pat.isPrefixOf (c :: rest) then some 0
    else (firstIdxL pat rest).map (· + 1)

/-- Strict comparison of two optional indices; false unless both are present. -/
def idxLt (a b : Option Nat) : Bool :=
  match a, b with
  | some i, some j => Nat.blt i j
  | _, _ => false

/-- Python `s[:200]`, the snippet truncation in the web-search renderer. -/
def pyTake (n : Nat) (s : String) : String := String.mk (s.data.take n)

/-! ### Data model (`Message`, `UserData`) -/

/-- The `Message` TypedDict: one history entry. -/
structure Message where
  role : String
  content : String
  timestamp : String
deriving Repr, DecidableEq

/-- The `UserData` TypedDict: the process-wide conversation state. -/
structure UserData where
  current_habits : List String
  energizing_activities : List String
  goals : List String
  conversation_history : List Message
deriving Repr, DecidableEq

/-! ### Search adapter (`search_web`, `search_youtube`) -/

/-- A raw web-search record from the provider: the three fields the code reads
with `r['title']`, `r['link']`, `r['body']`; a missing field is `none` and
makes the subscript raise `KeyError`. -/
structure RawText where
  title : Option String
  link : Option String
  body : Option String
deriving Repr, DecidableEq

/-- A raw video record from the provider.  A well-formed record is a dict read
with `r.get(...)` (each field possibly absent); `malformed` stands for a
record on which the per-record extraction itself raises. -/
inductive RawVideo where
  | record (title link duration channel : Option String)
  | malformed
deriving Repr, DecidableEq

/-- A normalized web result with fields title, link, snippet. -/
structure WebResult where
  title : String
  link : String
  snippet : String
deriving Repr, DecidableEq

/-- A normalized video result with fields title, link, duration, channel. -/
structure VideoResult where
  title : String
  link : String
  duration : String
  channel : String
deriving Repr, DecidableEq

/-- The adapter `search_web`: iterates the provider records reading `title`/`link`/`body`
by subscript; any provider exception or missing key propagates to the
enclosing handler, which returns the empty list. -/
def search_web (provided : Except String (List RawText)) : List WebResult :=
  match provided with
  | .error _ => []
  | .ok rs =>
    match rs.mapM (fun r => do
      let t ← r.title
      let l ← r.link
      let b ← r.body
      pure (WebResult.mk t l b)) with
    | some results => results
    | none => []

/-- The adapter `search_youtube`: each record is rendered with `r.get` fallbacks
("No title"/"No link"/"N/A"); a record whose extraction raises is skipped by
the per-record handler; a provider-level exception yields the empty list. -/
def search_youtube (provided : Except String (List RawVideo)) : List VideoResult :=
  match provided with
  | .error _ => []
  | .ok rs =>
    rs.filterMap (fun r =>
      match r with
      | .record t l d c =>
        some (VideoResult.mk (t.getD "No title") (l.getD "No link") (d.getD "N/A") (c.getD "N/A"))
      | .malformed => none)

/-! ### Completion adapter (`get_gemini_response`) -/

/-- The adapter `get_gemini_response`: builds the combined prompt
`context + "\n\nUser: " + prompt + "\nAssistant:"`, submits it, and turns any
provider exception into the fixed apology string embedding the error text. -/
def get_gemini_response (provider : String → Except String String)
    (prompt : String) (context : String) : String :=
  match provider (context ++ "\n\nUser: " ++ prompt ++ "\nAssistant:") with
  | .ok text => text
  | .error e => "I apologize, but I encountered an error: " ++ e

/-! ### Conversation history -/

/-- The helper `add_to_conversation_history`: appends one timestamped entry. -/
def add_to_conversation_history (now : String) (st : UserData)
    (message : String) (role : String) : UserData :=
  { st with conversation_history :=
      st.conversation_history ++ [Message.mk role message now] }

/-! ### Rendering of Python `str()` for the history window

The free-form branch embeds `str(user_data['conversation_history'][-5:])` in
the completion context.  This renders the list of `Message` dicts the way
CPython does: single-quoted reprs, double quotes when the text holds a single
quote but no double quote, with backslash escapes. -/

/-- Escape a string body for a Python `repr` under the given quote character. -/
def pyStrEscape (quote : Char) (s : String) : String :=
  String.mk (s.data.foldr (fun c acc =>
    if c = '\\' then '\\' :: '\\' :: acc
    else if c = quote then '\\' :: c :: acc
    else if c = '\n' then '\\' :: 'n' :: acc
    else if c = '\r' then '\\' :: 'r' :: acc
    else if c = '\t' then '\\' :: 't' :: acc
    else c :: acc) [])

/-- Python `repr` of a text value. -/
def pyReprStr (s : String) : String :=
  if s.data.contains '\x27' && !(s.data.contains '"') then
    "\"" ++ pyStrEscape '"' s ++ "\""
  else
    "\x27" ++ pyStrEscape '\x27' s ++ "\x27"

/-- Python `repr` of one `Message` dict. -/
def pyReprMessage (m : Message) : String :=
  "\x7b\x27role\x27: " ++ pyReprStr m.role ++ ", \x27content\x27: " ++ pyReprStr m.content
    ++ ", \x27timestamp\x27: " ++ pyReprStr m.timestamp ++ "\x7d"

/-- Python `str` of a list of `Message` dicts. -/
def pyReprHistory (ms : List Message) : String :=
  "[" ++ joinComma (ms.map pyReprMessage) ++ "]"

/-- Python `l[-5:]`: the last five entries (or all of them when fewer). -/
def lastFive (l : List Message) : List Message := l.drop (l.length - 5)

/-! ### The environment of external effects -/

/-- The oracles for one turn: the clock reading used for timestamps, the
completion provider, the two search providers, and the chat runtime's `send`
(whose `error` case models `cl.Message(...).send()` raising). -/
structure Env where
  now : String
  geminiProvider : String → Except String String
  videoProvider : String → Except String (List RawVideo)
  textProvider : String → Except String (List RawText)
  send : String → Except String Unit

/-- The observable outcome of one `on_message` turn. -/
structure TurnResult where
  state : UserData
  sent : List String
  geminiCalls : List (String × String)
  videoQueries : List String
  webQueries : List String
  raised : Option String
  escaped : Option String
deriving Repr

/-- Shared tail of every single-response branch: append the assistant message
to history, then send it; a raising send aborts the branch with the exception
recorded for the outer handler. -/
def finishTurn (env : Env) (st : UserData) (response : String)
    (g : List (String × String)) (vq wq : List String) : TurnResult :=
  match env.send response with
  | .ok _ =>
    TurnResult.mk (add_to_conversation_history env.now st response "assistant")
      [response] g vq wq none none
  | .error e =>
    TurnResult.mk (add_to_conversation_history env.now st response "assistant")
      [] g vq wq (some e) none

/-! ### The dialogue controller (`on_message`), branch by branch -/

/-- Render one video result the way the controller formats it. -/
def renderVideo (r : VideoResult) : String :=
  "📺 " ++ r.title ++ "\n🔗 " ++ r.link ++ "\n⏱️ Duration: " ++ r.duration
    ++ "\n👤 Channel: " ++ r.channel ++ "\n\n"

/-- Render one web result with the 200-character snippet truncation. -/
def renderWeb (r : WebResult) : String :=
  "📚 " ++ r.title ++ "\n🔗 " ++ r.link ++ "\n📝 " ++ pyTake 200 r.snippet ++ "...\n\n"

/-- Branch 1: the YouTube-search branch (keywords youtube/video/watch). -/
def videoBranch (env : Env) (st : UserData) (content : String) : TurnResult :=
  let q0 := ["youtube", "video", "watch", "find", "search"].foldl
    (fun q k => pyStrip (pyReplace q k)) content
  let search_query := if q0 = "" then "morning routine motivation" else q0
  let results := search_youtube (env.videoProvider search_query)
  if !results.isEmpty then
    finishTurn env st ("Here are some relevant videos:\n\n" ++ concatAll (results.map renderVideo))
      [] [search_query] []
  else
    let fallback_results := search_youtube (env.videoProvider "morning routine motivation")
    let response :=
      if !fallback_results.isEmpty then
        "Here are some motivational morning routine videos:\n\n"
          ++ concatAll (fallback_results.map renderVideo)
      else
        "I apologize, but I\x27m having trouble finding videos right now. Would you like to try a different type of search or continue with creating a morning routine?"
    finishTurn env st response [] [search_query, "morning routine motivation"] []

/-- Branch 2: the web-search branch (keywords search/find/look for). -/
def webBranch (env : Env) (st : UserData) (content : String) : TurnResult :=
  let q0 := ["search", "find", "look for"].foldl
    (fun q k => pyStrip (pyReplace q k)) content
  let search_query := if q0 = "" then "morning routine tips" else q0
  let results := search_web (env.textProvider search_query)
  let response :=
    if !results.isEmpty then
      "Here are some relevant resources:\n\n" ++ concatAll (results.map renderWeb)
    else
      "I couldn\x27t find any relevant results. Would you like to try a different search query?"
  finishTurn env st response [] [] [search_query]

/-- Branch 3: the routine-kickoff branch (literal kickoff phrase present). -/
def kickoffBranch (env : Env) (st : UserData) : TurnResult :=
  let prompt := "Start a conversation about creating a morning routine. Ask about current habits."
  let ctx := "You are a morning routine expert. Start by asking about the user\x27s current morning habits."
  finishTurn env st (get_gemini_response env.geminiProvider prompt ctx) [(prompt, ctx)] [] []

/-- Branch 4: intake of current habits. -/
def habitsBranch (env : Env) (st : UserData) (content : String) : TurnResult :=
  let habits := splitAndTrim content
  let st := { st with current_habits := habits }
  let prompt := "Ask about energizing morning activities"
  let ctx := "User\x27s current habits: " ++ joinComma habits
  finishTurn env st (get_gemini_response env.geminiProvider prompt ctx) [(prompt, ctx)] [] []

/-- Branch 5: intake of energizing activities. -/
def activitiesBranch (env : Env) (st : UserData) (content : String) : TurnResult :=
  let acts := splitAndTrim content
  let st := { st with energizing_activities := acts }
  let prompt := "Ask about morning goals"
  let ctx := "User\x27s current habits: " ++ joinComma st.current_habits
    ++ "\nEnergizing activities: " ++ joinComma acts
  finishTurn env st (get_gemini_response env.geminiProvider prompt ctx) [(prompt, ctx)] [] []

/-- The indented triple-quoted context block built in the goals branch. -/
def goalsContext (habits acts goals : List String) : String :=
  "\n            User\x27s current habits: " ++ joinComma habits
    ++ "\n            Energizing activities: " ++ joinComma acts
    ++ "\n            Goals: " ++ joinComma goals
    ++ "\n            \n            Create a detailed, personalized morning routine that incorporates these elements.\n            Include specific timing suggestions and explain the benefits of each activity.\n            "

/-- Branch 6: intake of goals plus routine generation — two completion calls
and two outgoing messages, strictly in sequence. -/
def goalsBranch (env : Env) (st : UserData) (content : String) : TurnResult :=
  let goals := splitAndTrim content
  let st := { st with goals := goals }
  let context := goalsContext st.current_habits st.energizing_activities goals
  let routine := get_gemini_response env.geminiProvider "Generate a morning routine" context
  let st := add_to_conversation_history env.now st routine "assistant"
  match env.send routine with
  | .error e =>
    TurnResult.mk st [] [("Generate a morning routine", context)] [] [] (some e) none
  | .ok _ =>
    let fprompt := "Ask if they want to make any adjustments or need explanations"
    let fctx := "You\x27ve just provided a morning routine. Ask if they want to make adjustments or need explanations."
    let follow_up := get_gemini_response env.geminiProvider fprompt fctx
    let st := add_to_conversation_history env.now st follow_up "assistant"
    match env.send follow_up with
    | .ok _ =>
      TurnResult.mk st [routine, follow_up]
        [("Generate a morning routine", context), (fprompt, fctx)] [] [] none none
    | .error e =>
      TurnResult.mk st [routine]
        [("Generate a morning routine", context), (fprompt, fctx)] [] [] (some e) none

/-- The indented context block built in the free-form branch, embedding the
rendered last-five history window. -/
def freeFormContext (st : UserData) : String :=
  "\n        User\x27s preferences:\n        - Current habits: " ++ joinComma st.current_habits
    ++ "\n        - Energizing activities: " ++ joinComma st.energizing_activities
    ++ "\n        - Goals: " ++ joinComma st.goals
    ++ "\n        \n        Previous conversation: " ++ pyReprHistory (lastFive st.conversation_history)
    ++ "\n        "

/-- Branch 7: free-form follow-up, forwarding the raw (not lowercased)
message to the completion adapter with the accumulated context. -/
def freeFormBranch (env : Env) (st : UserData) (raw : String) : TurnResult :=
  let context := freeFormContext st
  finishTurn env st (get_gemini_response env.geminiProvider raw context) [(raw, context)] [] []

/-- The body of the `try` block of `on_message`: the prioritised dispatch.
`st` is the state after the user's message was appended; `content` is the
lowercased message; `raw` the original text. -/
def dispatch (env : Env) (st : UserData) (content raw : String) : TurnResult :=
  if containsAny content ["youtube", "video", "watch"] then
    videoBranch env st content
  else if containsAny content ["search", "find", "look for"] then
    webBranch env st content
  else if pyContains content "help me create a personalized morning routine" then
    kickoffBranch env st
  else if st.current_habits.isEmpty then
    habitsBranch env st content
  else if st.energizing_activities.isEmpty then
    activitiesBranch env st content
  else if st.goals.isEmpty then
    goalsBranch env st content
  else
    freeFormBranch env st raw

/-- The outer `except` handler: a dispatch exception is turned into an
apology sent to the user but never appended to history; if that very send
raises too, the exception escapes `on_message`. -/
def handleErr (env : Env) (d : TurnResult) : TurnResult :=
  match d.raised with
  | none => d
  | some e =>
    match env.send ("I apologize, but I encountered an error: " ++ e) with
    | .ok _ => { d with sent := d.sent ++ ["I apologize, but I encountered an error: " ++ e] }
    | .error e2 => { d with escaped := some e2 }

/-- The handler `on_message`: lowercase the content, append the user's message to
history, run the prioritised dispatch, and apply the outer error handler. -/
def on_message (env : Env) (st0 : UserData) (raw : String) : TurnResult :=
  handleErr env
    (dispatch env (add_to_conversation_history env.now st0 raw "user") (pyLower raw) raw)

/-! ### The local template renderer (`generate_morning_routine`) -/

/-- The renderer `generate_morning_routine`: the pure local formatter over the three
preference lists plus the fixed tips block. -/
def generate_morning_routine (user_data : UserData) : String :=
  let routine := "🌅 Your Personalized Morning Routine:\n\n"
  let routine :=
    if !user_data.energizing_activities.isEmpty then
      routine ++ "1. Start with energizing activities:\n"
        ++ concatAll (user_data.energizing_activities.map (fun activity => "   - " ++ pyStrip activity ++ "\n"))
    else routine
  let routine :=
    if !user_data.current_habits.isEmpty then
      routine ++ "\n2. Maintain your current habits:\n"
        ++ concatAll (user_data.current_habits.map (fun habit => "   - " ++ pyStrip habit ++ "\n"))
    else routine
  let routine :=
    if !user_data.goals.isEmpty then
      routine ++ "\n3. Goal-focused activities:\n"
        ++ concatAll (user_data.goals.map (fun goal => "   - " ++ pyStrip goal ++ "\n"))
    else routine
  routine ++ "\n💡 Tips:\n- Wake up at the same time every day\n- Start with a glass of water\n- Take small steps to build consistency\n"

/-! ### Concrete fixtures used by witnesses and counterexamples -/

/-- The empty start-of-process state. -/
def ud0 : UserData := UserData.mk [] [] [] []

/-- An environment whose providers answer benignly and whose sends succeed. -/
def envOk : Env :=
  Env.mk "t0" (fun _ => Except.ok "reply") (fun _ => Except.ok []) (fun _ => Except.ok [])
    (fun _ => Except.ok ())

/-- An environment whose send raises on every message except the apology,
driving a turn into the outer error handler. -/
def envFail : Env :=
  Env.mk "t0" (fun _ => Except.ok "ok!") (fun _ => Except.ok []) (fun _ => Except.ok [])
    (fun s => if infixOfL "apologize".data s.data then Except.ok () else Except.error "boom")

/-- The state of claim C8's scenario. -/
def sampleState : UserData :=
  UserData.mk ["meditate", "stretch"] ["cold shower"] ["focus"] []

/-- The same preference lists as `sampleState` but a different history. -/
def sampleState2 : UserData :=
  UserData.mk ["meditate", "stretch"] ["cold shower"] ["focus"] [Message.mk "user" "hi" "t0"]

/-- A completion provider that always fails. -/
def geminiErrProvider : String → Except String String := fun _ => Except.error "quota exceeded"

/-- The state of the goals-completion turn: no intercepting keyword, habits
and activities already collected, goals still empty. -/
def goalsCompletionTurn (st : UserData) (content : String) : Bool :=
  !containsAny content ["youtube", "video", "watch"]
    && !containsAny content ["search", "find", "look for"]
    && !pyContains content "help me create a personalized morning routine"
    && !st.current_habits.isEmpty
    && !st.energizing_activities.isEmpty
    && st.goals.isEmpty

/-! ### Plumbing lemmas about the turn structure -/

theorem handleErr_state (env : Env) (d : TurnResult) : (handleErr env d).state = d.state := by
  unfold handleErr
  split
  · rfl
  · split <;> rfl

theorem handleErr_geminiCalls (env : Env) (d : TurnResult) :
    (handleErr env d).geminiCalls = d.geminiCalls := by
  unfold handleErr
  split
  · rfl
  · split <;> rfl

theorem handleErr_videoQueries (env : Env) (d : TurnResult) :
    (handleErr env d).videoQueries = d.videoQueries := by
  unfold handleErr
  split
  · rfl
  · split <;> rfl

theorem handleErr_webQueries (env : Env) (d : TurnResult) :
    (handleErr env d).webQueries = d.webQueries := by
  unfold handleErr
  split
  · rfl
  · split <;> rfl

theorem handleErr_raised (env : Env) (d : TurnResult) : (handleErr env d).raised = d.raised := by
  unfold handleErr
  split
  · rfl
  · split <;> rfl

theorem handleErr_of_none (env : Env) (d : TurnResult) (h : d.raised = none) :
    handleErr env d = d := by
  unfold handleErr
  rw [h]

theorem finishTurn_state (env : Env) (st : UserData) (response : String)
    (g : List (String × String)) (vq wq : List String) :
    (finishTurn env st response g vq wq).state
      = add_to_conversation_history env.now st response "assistant" := by
  unfold finishTurn
  split <;> rfl

theorem finishTurn_geminiCalls (env : Env) (st : UserData) (response : String)
    (g : List (String × String)) (vq wq : List String) :
    (finishTurn env st response g vq wq).geminiCalls = g := by
  unfold finishTurn
  split <;> rfl

theorem finishTurn_videoQueries (env : Env) (st : UserData) (response : String)
    (g : List (String × String)) (vq wq : List String) :
    (finishTurn env st response g vq wq).videoQueries = vq := by
  unfold finishTurn
  split <;> rfl

theorem finishTurn_webQueries (env : Env) (st : UserData) (response : String)
    (g : List (String × String)) (vq wq : List String) :
    (finishTurn env st response g vq wq).webQueries = wq := by
  unfold finishTurn
  split <;> rfl

theorem finishTurn_of_ok (env : Env) (st : UserData) (response : String)
    (g : List (String × String)) (vq wq : List String)
    (h : env.send response = Except.ok ()) :
    finishTurn env st response g vq wq
      = TurnResult.mk (add_to_conversation_history env.now st response "assistant")
          [response] g vq wq none none := by
  unfold finishTurn
  rw [h]

/-- Appending one assistant message extends history on the right. -/
theorem hist_append_one (now : String) (st : UserData) (resp : String) (base : List Message)
    (hb : st.conversation_history = base) :
    ∃ tail : List Message,
      (add_to_conversation_history now st resp "assistant").conversation_history
        = base ++ tail
      ∧ (∀ m ∈ tail, m.role = "assistant") ∧ tail.length = 1 :=
  ⟨[Message.mk "assistant" resp now], by simp [add_to_conversation_history, hb], by simp, rfl⟩

/-- Appending two assistant messages extends history on the right. -/
theorem hist_append_two (now : String) (st : UserData) (r1 r2 : String) (base : List Message)
    (hb : st.conversation_history = base) :
    ∃ tail : List Message,
      (add_to_conversation_history now
          (add_to_conversation_history now st r1 "assistant") r2 "assistant").conversation_history
        = base ++ tail
      ∧ (∀ m ∈ tail, m.role = "assistant") ∧ tail.length = 2 :=
  ⟨[Message.mk "assistant" r1 now, Message.mk "assistant" r2 now],
    by simp [add_to_conversation_history, hb], by simp, rfl⟩

/-- Whatever the branch and whatever the oracles do, dispatch only ever
appends assistant-roled messages to the history it receives. -/
theorem dispatch_hist (env : Env) (st : UserData) (content raw : String) :
    ∃ tail : List Message,
      (dispatch env st content raw).state.conversation_history
        = st.conversation_history ++ tail
      ∧ ∀ m ∈ tail, m.role = "assistant" := by
  unfold dispatch videoBranch webBranch kickoffBranch habitsBranch activitiesBranch
    goalsBranch freeFormBranch finishTurn
  dsimp only
  repeat' split
  all_goals
    first
      | exact (hist_append_one _ _ _ st.conversation_history rfl).imp
          (fun tail h => ⟨h.1, h.2.1⟩)
      | exact (hist_append_two _ _ _ _ st.conversation_history rfl).imp
          (fun tail h => ⟨h.1, h.2.1⟩)

/-! ### Branch-selection lemmas for the prioritised dispatch -/

theorem dispatch_video (env : Env) (st : UserData) (content raw : String)
    (h1 : containsAny content ["youtube", "video", "watch"] = true) :
    dispatch env st content raw = videoBranch env st content := by
  unfold dispatch
  rw [if_pos h1]

theorem dispatch_web (env : Env) (st : UserData) (content raw : String)
    (h1 : containsAny content ["youtube", "video", "watch"] = false)
    (h2 : containsAny content ["search", "find", "look for"] = true) :
    dispatch env st content raw = webBranch env st content := by
  unfold dispatch
  rw [if_neg (by simp [h1]), if_pos h2]

theorem dispatch_kickoff (env : Env) (st : UserData) (content raw : String)
    (h1 : containsAny content ["youtube", "video", "watch"] = false)
    (h2 : containsAny content ["search", "find", "look for"] = false)
    (h3 : pyContains content "help me create a personalized morning routine" = true) :
    dispatch env st content raw = kickoffBranch env st := by
  unfold dispatch
  rw [if_neg (by simp [h1]), if_neg (by simp [h2]), if_pos h3]

theorem dispatch_habits (env : Env) (st : UserData) (content raw : String)
    (h1 : containsAny content ["youtube", "video", "watch"] = false)
    (h2 : containsAny content ["search", "find", "look for"] = false)
    (h3 : pyContains content "help me create a personalized morning routine" = false)
    (h4 : st.current_habits.isEmpty = true) :
    dispatch env st content raw = habitsBranch env st content := by
  unfold dispatch
  rw [if_neg (by simp [h1]), if_neg (by simp [h2]), if_neg (by simp [h3]), if_pos h4]

theorem dispatch_activities (env : Env) (st : UserData) (content raw : String)
    (h1 : containsAny content ["youtube", "video", "watch"] = false)
    (h2 : containsAny content ["search", "find", "look for"] = false)
    (h3 : pyContains content "help me create a personalized morning routine" = false)
    (h4 : st.current_habits.isEmpty = false)
    (h5 : st.energizing_activities.isEmpty = true) :
    dispatch env st content raw = activitiesBranch env st content := by
  unfold dispatch
  rw [if_neg (by simp [h1]), if_neg (by simp [h2]), if_neg (by simp [h3]),
    if_neg (by simp [h4]), if_pos h5]

theorem dispatch_goals (env : Env) (st : UserData) (content raw : String)
    (h1 : containsAny content ["youtube", "video", "watch"] = false)
    (h2 : containsAny content ["search", "find", "look for"] = false)
    (h3 : pyContains content "help me create a personalized morning routine" = false)
    (h4 : st.current_habits.isEmpty = false)
    (h5 : st.energizing_activities.isEmpty = false)
    (h6 : st.goals.isEmpty = true) :
    dispatch env st content raw = goalsBranch env st content := by
  unfold dispatch
  rw [if_neg (by simp [h1]), if_neg (by simp [h2]), if_neg (by simp [h3]),
    if_neg (by simp [h4]), if_neg (by simp [h5]), if_pos h6]

theorem dispatch_freeform (env : Env) (st : UserData) (content raw : String)
    (h1 : containsAny content ["youtube", "video", "watch"] = false)
    (h2 : containsAny content ["search", "find", "look for"] = false)
    (h3 : pyContains content "help me create a personalized morning routine" = false)
    (h4 : st.current_habits.isEmpty = false)
    (h5 : st.energizing_activities.isEmpty = false)
    (h6 : st.goals.isEmpty = false) :
    dispatch env st content raw = freeFormBranch env st raw := by
  unfold dispatch
  rw [if_neg (by simp [h1]), if_neg (by simp [h2]), if_neg (by simp [h3]),
    if_neg (by simp [h4]), if_neg (by simp [h5]), if_neg (by simp [h6])]

/-! ### Per-branch history growth under successful sends -/

theorem finishTurn_hist_ok (env : Env) (st : UserData) (response : String)
    (g : List (String × String)) (vq wq : List String)
    (h : env.send response = Except.ok ()) (base : List Message)
    (hb : st.conversation_history = base) :
    ∃ tail : List Message,
      (finishTurn env st response g vq wq).state.conversation_history = base ++ tail
      ∧ (∀ m ∈ tail, m.role = "assistant") ∧ tail.length = 1
      ∧ (finishTurn env st response g vq wq).raised = none := by
  rw [finishTurn_of_ok env st response g vq wq h]
  exact (hist_append_one _ _ _ base hb).imp (fun tail hh => ⟨hh.1, hh.2.1, hh.2.2, rfl⟩)

theorem videoBranch_hist_ok (env : Env) (st : UserData) (content : String)
    (hsend : ∀ s, env.send s = Except.ok ()) :
    ∃ tail : List Message,
      (videoBranch env st content).state.conversation_history
        = st.conversation_history ++ tail
      ∧ (∀ m ∈ tail, m.role = "assistant") ∧ tail.length = 1
      ∧ (videoBranch env st content).raised = none := by
  unfold videoBranch
  dsimp only
  repeat' split
  all_goals exact finishTurn_hist_ok _ _ _ _ _ _ (hsend _) st.conversation_history rfl

theorem webBranch_hist_ok (env : Env) (st : UserData) (content : String)
    (hsend : ∀ s, env.send s = Except.ok ()) :
    ∃ tail : List Message,
      (webBranch env st content).state.conversation_history
        = st.conversation_history ++ tail
      ∧ (∀ m ∈ tail, m.role = "assistant") ∧ tail.length = 1
      ∧ (webBranch env st content).raised = none := by
  unfold webBranch
  exact finishTurn_hist_ok _ _ _ _ _ _ (hsend _) st.conversation_history rfl

theorem kickoffBranch_hist_ok (env : Env) (st : UserData)
    (hsend : ∀ s, env.send s = Except.ok ()) :
    ∃ tail : List Message,
      (kickoffBranch env st).state.conversation_history = st.conversation_history ++ tail
      ∧ (∀ m ∈ tail, m.role = "assistant") ∧ tail.length = 1
      ∧ (kickoffBranch env st).raised = none := by
  unfold kickoffBranch
  exact finishTurn_hist_ok _ _ _ _ _ _ (hsend _) st.conversation_history rfl

theorem habitsBranch_hist_ok (env : Env) (st : UserData) (content : String)
    (hsend : ∀ s, env.send s = Except.ok ()) :
    ∃ tail : List Message,
      (habitsBranch env st content).state.conversation_history
        = st.conversation_history ++ tail
      ∧ (∀ m ∈ tail, m.role = "assistant") ∧ tail.length = 1
      ∧ (habitsBranch env st content).raised = none := by
  unfold habitsBranch
  exact finishTurn_hist_ok _ _ _ _ _ _ (hsend _) st.conversation_history rfl

theorem activitiesBranch_hist_ok (env : Env) (st : UserData) (content : String)
    (hsend : ∀ s, env.send s = Except.ok ()) :
    ∃ tail : List Message,
      (activitiesBranch env st content).state.conversation_history
        = st.conversation_history ++ tail
      ∧ (∀ m ∈ tail, m.role = "assistant") ∧ tail.length = 1
      ∧ (activitiesBranch env st content).raised = none := by
  unfold activitiesBranch
  exact finishTurn_hist_ok _ _ _ _ _ _ (hsend _) st.conversation_history rfl

theorem freeFormBranch_hist_ok (env : Env) (st : UserData) (raw : String)
    (hsend : ∀ s, env.send s = Except.ok ()) :
    ∃ tail : List Message,
      (freeFormBranch env st raw).state.conversation_history
        = st.conversation_history ++ tail
      ∧ (∀ m ∈ tail, m.role = "assistant") ∧ tail.length = 1
      ∧ (freeFormBranch env st raw).raised = none := by
  unfold freeFormBranch
  exact finishTurn_hist_ok _ _ _ _ _ _ (hsend _) st.conversation_history rfl

theorem goalsBranch_hist_ok (env : Env) (st : UserData) (content : String)
    (hsend : ∀ s, env.send s = Except.ok ()) :
    ∃ tail : List Message,
      (goalsBranch env st content).state.conversation_history
        = st.conversation_history ++ tail
      ∧ (∀ m ∈ tail, m.role = "assistant") ∧ tail.length = 2
      ∧ (goalsBranch env st content).raised = none := by
  unfold goalsBranch
  dsimp only
  simp only [hsend]
  exact (hist_append_two _ _ _ _ st.conversation_history rfl).imp
    (fun tail hh => ⟨hh.1, hh.2.1, hh.2.2, by trivial⟩)

/-! ### Per-branch preference-list and query lemmas -/

theorem habitsBranch_lists (env : Env) (st : UserData) (content : String) :
    (habitsBranch env st content).state.current_habits = splitAndTrim content
    ∧ (habitsBranch env st content).state.energizing_activities = st.energizing_activities
    ∧ (habitsBranch env st content).state.goals = st.goals := by
  unfold habitsBranch finishTurn
  dsimp only
  repeat' split
  all_goals exact ⟨rfl, rfl, rfl⟩

theorem activitiesBranch_lists (env : Env) (st : UserData) (content : String) :
    (activitiesBranch env st content).state.current_habits = st.current_habits
    ∧ (activitiesBranch env st content).state.energizing_activities = splitAndTrim content
    ∧ (activitiesBranch env st content).state.goals = st.goals := by
  unfold activitiesBranch finishTurn
  dsimp only
  repeat' split
  all_goals exact ⟨rfl, rfl, rfl⟩

theorem goalsBranch_lists (env : Env) (st : UserData) (content : String) :
    (goalsBranch env st content).state.current_habits = st.current_habits
    ∧ (goalsBranch env st content).state.energizing_activities = st.energizing_activities
    ∧ (goalsBranch env st content).state.goals = splitAndTrim content := by
  unfold goalsBranch
  dsimp only
  repeat' split
  all_goals exact ⟨rfl, rfl, rfl⟩

theorem freeFormBranch_lists (env : Env) (st : UserData) (raw : String) :
    (freeFormBranch env st raw).state.current_habits = st.current_habits
    ∧ (freeFormBranch env st raw).state.energizing_activities = st.energizing_activities
    ∧ (freeFormBranch env st raw).state.goals = st.goals := by
  unfold freeFormBranch finishTurn
  dsimp only
  repeat' split
  all_goals exact ⟨rfl, rfl, rfl⟩

theorem videoBranch_queries (env : Env) (st : UserData) (content : String) :
    (videoBranch env st content).videoQueries ≠ []
    ∧ (videoBranch env st content).webQueries = [] := by
  unfold videoBranch finishTurn
  dsimp only
  repeat' split
  all_goals exact ⟨List.cons_ne_nil _ _, rfl⟩

theorem habitsBranch_geminiCalls (env : Env) (st : UserData) (content : String) :
    (habitsBranch env st content).geminiCalls
      = [("Ask about energizing morning activities",
          "User\x27s current habits: " ++ joinComma (splitAndTrim content))] := by
  unfold habitsBranch
  dsimp only
  rw [finishTurn_geminiCalls]

theorem handleErr_of_some (env : Env) (d : TurnResult) (e : String) (h : d.raised = some e) :
    handleErr env d
      = match env.send ("I apologize, but I encountered an error: " ++ e) with
        | .ok _ => { d with sent := d.sent ++ ["I apologize, but I encountered an error: " ++ e] }
        | .error e2 => { d with escaped := some e2 } := by
  unfold handleErr
  rw [h]

/-! ### Claim theorems -/

/-- C1: on a message matching no video keyword, no web-search keyword and not
containing the kickoff phrase, the controller populates exactly the first
empty preference list — habits, then activities, then goals — from the
comma-split trimmed (lowercased) message, leaves the other two lists
untouched, and never overwrites or clears an already non-empty list. -/
theorem intake_fills_first_empty_list (env : Env) (st : UserData) (raw : String)
    (h1 : containsAny (pyLower raw) ["youtube", "video", "watch"] = false)
    (h2 : containsAny (pyLower raw) ["search", "find", "look for"] = false)
    (h3 : pyContains (pyLower raw) "help me create a personalized morning routine" = false) :
    ((on_message env st raw).state.current_habits
      = if st.current_habits.isEmpty then splitAndTrim (pyLower raw) else st.current_habits)
    ∧ ((on_message env st raw).state.energizing_activities
      = if !st.current_habits.isEmpty && st.energizing_activities.isEmpty
        then splitAndTrim (pyLower raw) else st.energizing_activities)
    ∧ ((on_message env st raw).state.goals
      = if !st.current_habits.isEmpty && !st.energizing_activities.isEmpty && st.goals.isEmpty
        then splitAndTrim (pyLower raw) else st.goals) := by
  unfold on_message
  rw [handleErr_state]
  cases hh : st.current_habits.isEmpty with
  | true =>
    rw [dispatch_habits env (add_to_conversation_history env.now st raw "user") (pyLower raw) raw h1 h2 h3 hh]
    obtain ⟨l1, l2, l3⟩ :=
      habitsBranch_lists env (add_to_conversation_history env.now st raw "user") (pyLower raw)
    rw [l1, l2, l3]
    simp [add_to_conversation_history, hh]
  | false =>
    cases ha : st.energizing_activities.isEmpty with
    | true =>
      rw [dispatch_activities env (add_to_conversation_history env.now st raw "user") (pyLower raw) raw h1 h2 h3 hh ha]
      obtain ⟨l1, l2, l3⟩ :=
        activitiesBranch_lists env (add_to_conversation_history env.now st raw "user") (pyLower raw)
      rw [l1, l2, l3]
      simp [add_to_conversation_history, hh, ha]
    | false =>
      cases hg : st.goals.isEmpty with
      | true =>
        rw [dispatch_goals env (add_to_conversation_history env.now st raw "user") (pyLower raw) raw h1 h2 h3 hh ha hg]
        obtain ⟨l1, l2, l3⟩ :=
          goalsBranch_lists env (add_to_conversation_history env.now st raw "user") (pyLower raw)
        rw [l1, l2, l3]
        simp [add_to_conversation_history, hh, ha, hg]
      | false =>
        rw [dispatch_freeform env (add_to_conversation_history env.now st raw "user") (pyLower raw) raw h1 h2 h3 hh ha hg]
        obtain ⟨l1, l2, l3⟩ :=
          freeFormBranch_lists env (add_to_conversation_history env.now st raw "user") raw
        rw [l1, l2, l3]
        simp [add_to_conversation_history, hh, ha, hg]

/-- C1 witness: a keyword-free first message populates the habit list. -/
theorem intake_fills_first_empty_list_witness :
    ((on_message envOk ud0 "x, y").state.current_habits
      = if ud0.current_habits.isEmpty then splitAndTrim (pyLower "x, y") else ud0.current_habits)
    ∧ ((on_message envOk ud0 "x, y").state.energizing_activities
      = if !ud0.current_habits.isEmpty && ud0.energizing_activities.isEmpty
        then splitAndTrim (pyLower "x, y") else ud0.energizing_activities)
    ∧ ((on_message envOk ud0 "x, y").state.goals
      = if !ud0.current_habits.isEmpty && !ud0.energizing_activities.isEmpty && ud0.goals.isEmpty
        then splitAndTrim (pyLower "x, y") else ud0.goals) :=
  intake_fills_first_empty_list envOk ud0 "x, y" (by decide) (by decide) (by decide)

/-- C2: a message whose lowercased content holds "youtube", "video" or
"watch" always drives a video search and never a web search, whatever other
keywords are present and whatever the intake progress. -/
theorem video_keywords_route_to_video_search (env : Env) (st : UserData) (raw : String)
    (h : containsAny (pyLower raw) ["youtube", "video", "watch"] = true) :
    (on_message env st raw).videoQueries ≠ [] ∧ (on_message env st raw).webQueries = [] := by
  unfold on_message
  rw [handleErr_videoQueries, handleErr_webQueries,
    dispatch_video env _ (pyLower raw) raw h]
  exact videoBranch_queries env _ (pyLower raw)

/-- C2 witness: the message "search and find a video" matches both keyword
sets yet drives only the video search. -/
theorem video_keywords_route_to_video_search_witness :
    (on_message envOk ud0 "search and find a video").videoQueries ≠ []
    ∧ (on_message envOk ud0 "search and find a video").webQueries = [] :=
  video_keywords_route_to_video_search envOk ud0 "search and find a video" (by decide)

/-- C7: on the first-ever message "a, b, c" (all lists empty), the habit list
becomes ["a","b","c"], the other two lists stay empty, and exactly one
completion call is made — the one asking about energizing activities. -/
theorem first_message_scenario (env : Env) :
    (on_message env ud0 "a, b, c").state.current_habits = ["a", "b", "c"]
    ∧ (on_message env ud0 "a, b, c").state.energizing_activities = []
    ∧ (on_message env ud0 "a, b, c").state.goals = []
    ∧ (on_message env ud0 "a, b, c").geminiCalls
      = [("Ask about energizing morning activities", "User\x27s current habits: a, b, c")] := by
  have h1 : containsAny (pyLower "a, b, c") ["youtube", "video", "watch"] = false := by decide
  have h2 : containsAny (pyLower "a, b, c") ["search", "find", "look for"] = false := by decide
  have h3 : pyContains (pyLower "a, b, c")
      "help me create a personalized morning routine" = false := by decide
  have h4 : (add_to_conversation_history env.now ud0 "a, b, c" "user").current_habits.isEmpty
      = true := rfl
  unfold on_message
  rw [handleErr_state, handleErr_geminiCalls,
    dispatch_habits env _ (pyLower "a, b, c") "a, b, c" h1 h2 h3 h4]
  obtain ⟨l1, l2, l3⟩ :=
    habitsBranch_lists env (add_to_conversation_history env.now ud0 "a, b, c" "user")
      (pyLower "a, b, c")
  rw [l1, l2, l3, habitsBranch_geminiCalls]
  refine ⟨by decide, rfl, rfl, by decide⟩

/-- Dispatch-level history growth under successful sends: one assistant
append normally, two on the goals-completion branch, and no exception. -/
theorem dispatch_hist_len (env : Env) (st : UserData) (content raw : String)
    (hsend : ∀ s, env.send s = Except.ok ()) :
    ∃ tail : List Message,
      (dispatch env st content raw).state.conversation_history
        = st.conversation_history ++ tail
      ∧ (∀ m ∈ tail, m.role = "assistant")
      ∧ tail.length
        = (if (!containsAny content ["youtube", "video", "watch"]
              && !containsAny content ["search", "find", "look for"]
              && !pyContains content "help me create a personalized morning routine"
              && !st.current_habits.isEmpty
              && !st.energizing_activities.isEmpty
              && st.goals.isEmpty) then 2 else 1)
      ∧ (dispatch env st content raw).raised = none := by
  cases b1 : containsAny content ["youtube", "video", "watch"] with
  | true =>
    rw [dispatch_video env st content raw b1]
    exact (videoBranch_hist_ok env st content hsend).imp
      (fun tail h => ⟨h.1, h.2.1, h.2.2.1.trans (by simp [b1]), h.2.2.2⟩)
  | false =>
    cases b2 : containsAny content ["search", "find", "look for"] with
    | true =>
      rw [dispatch_web env st content raw b1 b2]
      exact (webBranch_hist_ok env st content hsend).imp
        (fun tail h => ⟨h.1, h.2.1, h.2.2.1.trans (by simp [b2]), h.2.2.2⟩)
    | false =>
      cases b3 : pyContains content "help me create a personalized morning routine" with
      | true =>
        rw [dispatch_kickoff env st content raw b1 b2 b3]
        exact (kickoffBranch_hist_ok env st hsend).imp
          (fun tail h => ⟨h.1, h.2.1, h.2.2.1.trans (by simp [b3]), h.2.2.2⟩)
      | false =>
        cases b4 : st.current_habits.isEmpty with
        | true =>
          rw [dispatch_habits env st content raw b1 b2 b3 b4]
          exact (habitsBranch_hist_ok env st content hsend).imp
            (fun tail h => ⟨h.1, h.2.1, h.2.2.1.trans (by simp [b4]), h.2.2.2⟩)
        | false =>
          cases b5 : st.energizing_activities.isEmpty with
          | true =>
            rw [dispatch_activities env st content raw b1 b2 b3 b4 b5]
            exact (activitiesBranch_hist_ok env st content hsend).imp
              (fun tail h => ⟨h.1, h.2.1, h.2.2.1.trans (by simp [b5]), h.2.2.2⟩)
          | false =>
            cases b6 : st.goals.isEmpty with
            | true =>
              rw [dispatch_goals env st content raw b1 b2 b3 b4 b5 b6]
              exact (goalsBranch_hist_ok env st content hsend).imp
                (fun tail h =>
                  ⟨h.1, h.2.1, h.2.2.1.trans (by simp [b1, b2, b3, b4, b5, b6]), h.2.2.2⟩)
            | false =>
              rw [dispatch_freeform env st content raw b1 b2 b3 b4 b5 b6]
              exact (freeFormBranch_hist_ok env st raw hsend).imp
                (fun tail h => ⟨h.1, h.2.1, h.2.2.1.trans (by simp [b6]), h.2.2.2⟩)

/-- C3: on a turn whose sends all succeed, the history is only appended to —
the user's message first, then only assistant messages — and its length grows
by exactly 2, except on the goals-completion turn where it grows by 3. -/
theorem history_append_only_growth (env : Env) (st : UserData) (raw : String)
    (hsend : ∀ s, env.send s = Except.ok ()) :
    ∃ rest : List Message,
      (on_message env st raw).state.conversation_history
        = st.conversation_history ++ Message.mk "user" raw env.now :: rest
      ∧ (∀ m ∈ rest, m.role = "assistant")
      ∧ (on_message env st raw).state.conversation_history.length
        = st.conversation_history.length
          + (if goalsCompletionTurn st (pyLower raw) then 3 else 2) := by
  obtain ⟨tail, e1, e2, e3, e4⟩ :=
    dispatch_hist_len env (add_to_conversation_history env.now st raw "user") (pyLower raw) raw
      hsend
  have hom : on_message env st raw
      = dispatch env (add_to_conversation_history env.now st raw "user") (pyLower raw) raw := by
    unfold on_message
    rw [handleErr_of_none env _ e4]
  simp only [add_to_conversation_history] at e3
  refine ⟨tail, ?_, e2, ?_⟩
  · rw [hom, e1]
    simp [add_to_conversation_history]
  · rw [hom, e1]
    simp only [add_to_conversation_history, goalsCompletionTurn, List.length_append,
      List.length_cons, List.length_nil, e3]
    split <;> omega

/-- C3 witness: an ordinary keyword-free first turn grows history by two. -/
theorem history_append_only_growth_witness :
    ∃ rest : List Message,
      (on_message envOk ud0 "hello there").state.conversation_history
        = ud0.conversation_history ++ Message.mk "user" "hello there" envOk.now :: rest
      ∧ (∀ m ∈ rest, m.role = "assistant")
      ∧ (on_message envOk ud0 "hello there").state.conversation_history.length
        = ud0.conversation_history.length
          + (if goalsCompletionTurn ud0 (pyLower "hello there") then 3 else 2) :=
  history_append_only_growth envOk ud0 "hello there" (fun _ => rfl)

/-- C4 counterexample: on "find me articles on sleep" the derived web query
is "me articles on sleep" — only the keyword substring "find" is removed, so
the word "me" survives — not "articles on sleep" as the claim states. -/
theorem find_articles_query_counterexample :
    (on_message envOk ud0 "find me articles on sleep").webQueries = ["me articles on sleep"]
    ∧ ¬ (on_message envOk ud0 "find me articles on sleep").webQueries
      = ["articles on sleep"] := by
  decide

/-- C4 (amended): on "find me articles on sleep" the search-intent branch
fires with derived query "me articles on sleep" (the keyword "find" replaced
by nothing and the result stripped); an empty provider result yields the
fixed refine-your-query message and the turn raises nothing. -/
theorem find_articles_scenario (env : Env) (st : UserData)
    (hweb : env.textProvider "me articles on sleep" = Except.ok [])
    (hsend : ∀ s, env.send s = Except.ok ()) :
    (on_message env st "find me articles on sleep").webQueries = ["me articles on sleep"]
    ∧ (on_message env st "find me articles on sleep").sent
      = ["I couldn\x27t find any relevant results. Would you like to try a different search query?"]
    ∧ (on_message env st "find me articles on sleep").raised = none := by
  have h1 : containsAny (pyLower "find me articles on sleep")
      ["youtube", "video", "watch"] = false := by decide
  have h2 : containsAny (pyLower "find me articles on sleep")
      ["search", "find", "look for"] = true := by decide
  have hq : ["search", "find", "look for"].foldl (fun q k => pyStrip (pyReplace q k))
      (pyLower "find me articles on sleep") = "me articles on sleep" := by decide
  unfold on_message
  rw [dispatch_web env
    (add_to_conversation_history env.now st "find me articles on sleep" "user")
    (pyLower "find me articles on sleep") "find me articles on sleep" h1 h2]
  unfold webBranch
  dsimp only
  rw [hq, if_neg (show ¬("me articles on sleep" = "") by decide), hweb]
  have hres : search_web (Except.ok ([] : List RawText)) = [] := rfl
  rw [hres, if_neg (show ¬((!List.isEmpty ([] : List WebResult)) = true) by decide)]
  rw [finishTurn_of_ok _ _ _ _ _ _ (hsend _), handleErr_of_none env _ rfl]
  exact ⟨rfl, rfl, rfl⟩

/-- C4 witness for the amended scenario. -/
theorem find_articles_scenario_witness :
    (on_message envOk ud0 "find me articles on sleep").webQueries = ["me articles on sleep"]
    ∧ (on_message envOk ud0 "find me articles on sleep").sent
      = ["I couldn\x27t find any relevant results. Would you like to try a different search query?"]
    ∧ (on_message envOk ud0 "find me articles on sleep").raised = none :=
  find_articles_scenario envOk ud0 rfl (fun _ => rfl)

/-- C5: the search adapters never raise — a provider-level failure collapses
to the empty list in both adapters, a malformed video record is skipped
without aborting the records around it, and absent video fields fall back to
"No title"/"No link"/"N/A". -/
theorem search_adapters_never_raise :
    (∀ e : String, search_web (Except.error e) = [])
    ∧ (∀ e : String, search_youtube (Except.error e) = [])
    ∧ (∀ pre post : List RawVideo,
        search_youtube (Except.ok (pre ++ RawVideo.malformed :: post))
          = search_youtube (Except.ok pre) ++ search_youtube (Except.ok post))
    ∧ search_youtube (Except.ok [RawVideo.record none none none none])
      = [VideoResult.mk "No title" "No link" "N/A" "N/A"] := by
  refine ⟨fun e => rfl, fun e => rfl, fun pre post => ?_, rfl⟩
  simp [search_youtube, List.filterMap_append]

/-- C6: the completion adapter submits exactly the combined prompt
`context + "\n\nUser: " + prompt + "\nAssistant:"`; a successful provider
reply is returned as-is and any provider failure becomes the apology string
embedding the error detail instead of propagating. -/
theorem completion_adapter_contract (g : String → Except String String)
    (prompt context : String) :
    (∀ t : String,
      g (context ++ "\n\nUser: " ++ prompt ++ "\nAssistant:") = Except.ok t
        → get_gemini_response g prompt context = t)
    ∧ (∀ e : String,
      g (context ++ "\n\nUser: " ++ prompt ++ "\nAssistant:") = Except.error e
        → get_gemini_response g prompt context
          = "I apologize, but I encountered an error: " ++ e) := by
  constructor <;> intro x hx <;> unfold get_gemini_response <;> rw [hx]

/-- C6 witness: a failing provider produces the apology string. -/
theorem completion_adapter_contract_witness :
    get_gemini_response geminiErrProvider "p" "c"
      = "I apologize, but I encountered an error: quota exceeded" :=
  (completion_adapter_contract geminiErrProvider "p" "c").2 "quota exceeded" rfl

/-- C8: on the state with habits ["meditate","stretch"], activities
["cold shower"] and goals ["focus"], the local renderer's output contains
every list item verbatim and the fixed tips block, with the activities
section before the habits section before the goals section. -/
theorem renderer_scenario :
    pyContains (generate_morning_routine sampleState) "meditate" = true
    ∧ pyContains (generate_morning_routine sampleState) "stretch" = true
    ∧ pyContains (generate_morning_routine sampleState) "cold shower" = true
    ∧ pyContains (generate_morning_routine sampleState) "focus" = true
    ∧ pyContains (generate_morning_routine sampleState)
      "- Wake up at the same time every day" = true
    ∧ pyContains (generate_morning_routine sampleState)
      "- Start with a glass of water" = true
    ∧ pyContains (generate_morning_routine sampleState)
      "- Take small steps to build consistency" = true
    ∧ idxLt
      (firstIdxL "1. Start with energizing activities:".data
        (generate_morning_routine sampleState).data)
      (firstIdxL "2. Maintain your current habits:".data
        (generate_morning_routine sampleState).data) = true
    ∧ idxLt
      (firstIdxL "2. Maintain your current habits:".data
        (generate_morning_routine sampleState).data)
      (firstIdxL "3. Goal-focused activities:".data
        (generate_morning_routine sampleState).data) = true := by
  decide

/-- C9: the local template renderer is a pure function of the three
preference lists — two states agreeing on them (whatever their histories)
render identically, and in particular rendering the same snapshot twice
yields character-identical output. -/
theorem renderer_pure (s t : UserData)
    (hh : s.current_habits = t.current_habits)
    (ha : s.energizing_activities = t.energizing_activities)
    (hg : s.goals = t.goals) :
    generate_morning_routine s = generate_morning_routine t := by
  unfold generate_morning_routine
  rw [hh, ha, hg]

/-- C9 witness: two states differing only in history render identically. -/
theorem renderer_pure_witness :
    generate_morning_routine sampleState = generate_morning_routine sampleState2 :=
  renderer_pure sampleState sampleState2 rfl rfl rfl

/-- C10 counterexample: with a send that raises on the ordinary response but
accepts the apology, the first intake turn raises, the apology is sent, the
habit list keeps the value dispatch gave it — and history grows by 2 (the
user message plus the assistant response appended before the failing send),
not by 1 as the claim states. -/
theorem outer_handler_claim_counterexample :
    (on_message envFail ud0 "a").raised = some "boom"
    ∧ (on_message envFail ud0 "a").state.conversation_history.length
      = ud0.conversation_history.length + 2
    ∧ ¬ (on_message envFail ud0 "a").state.conversation_history.length
      = ud0.conversation_history.length + 1
    ∧ (on_message envFail ud0 "a").sent = ["I apologize, but I encountered an error: boom"]
    ∧ (on_message envFail ud0 "a").state.current_habits = ["a"] := by
  decide

/-- C10 (amended): when dispatch raises, the outer handler sends the apology
embedding the error (it is the last delivered message when its own send
succeeds) and appends nothing to history: the history holds the prior
entries, then the user's message, then exactly the assistant messages
dispatch appended before the exception — so it grows by 1 plus that count,
which is 2 (not 1) when the failure is the send of a branch's response. -/
theorem outer_handler_on_raise (env : Env) (st : UserData) (raw e : String)
    (hr : (on_message env st raw).raised = some e)
    (he : (on_message env st raw).escaped = none) :
    (∃ tail : List Message,
      (on_message env st raw).state.conversation_history
        = st.conversation_history ++ Message.mk "user" raw env.now :: tail
      ∧ ∀ m ∈ tail, m.role = "assistant")
    ∧ (on_message env st raw).sent.getLast?
      = some ("I apologize, but I encountered an error: " ++ e) := by
  unfold on_message at hr he ⊢
  have hdr : (dispatch env (add_to_conversation_history env.now st raw "user")
      (pyLower raw) raw).raised = some e :=
    (handleErr_raised env _).symm.trans hr
  constructor
  · obtain ⟨tail, hh1, hh2⟩ :=
      dispatch_hist env (add_to_conversation_history env.now st raw "user") (pyLower raw) raw
    refine ⟨tail, ?_, hh2⟩
    rw [handleErr_state env _, hh1]
    simp [add_to_conversation_history]
  · rw [handleErr_of_some env _ e hdr]
    rw [handleErr_of_some env _ e hdr] at he
    cases hs : env.send ("I apologize, but I encountered an error: " ++ e) with
    | ok u => simp
    | error e2 =>
      rw [hs] at he
      simp at he

/-- C10 witness for the amended statement. -/
theorem outer_handler_on_raise_witness :
    (∃ tail : List Message,
      (on_message envFail ud0 "a").state.conversation_history
        = ud0.conversation_history ++ Message.mk "user" "a" envFail.now :: tail
      ∧ ∀ m ∈ tail, m.role = "assistant")
    ∧ (on_message envFail ud0 "a").sent.getLast?
      = some ("I apologize, but I encountered an error: " ++ "boom") :=
  outer_handler_on_raise envFail ud0 "a" "boom" (by decide) (by decide)

end MorningBot
